import Mathlib

/-!
Verification of the geometric and control-flow logic of `detection.py`
(webcam person detection restricted to screen regions of interest).

The embedding follows the source file:
* `is_in_roi`      — the rectangle intersection predicate (lines 23-29);
* `draw_roi`       — the overlay renderer (lines 5-21), frames modelled as
                     functions from integer pixel coordinates to exact
                     rational colour triples;
* `computeROIs`    — the per-iteration ROI geometry (lines 66-84), with
                     Python `int()` truncation toward zero modelled by
                     `truncQ`;
* `detectionEvents`— the per-detection filter and annotation (lines 106-114);
* `mainTrace`      — the event trace of `main` (lines 31-124) over an
                     environment supplying camera/read/key outcomes,
                     fuel-bounded since the frame loop need not terminate.
-/

/-- A rectangle `(x1, y1, x2, y2)` in pixel space, as used throughout the
source: left, top, right, bottom. -/
def Rect : Type := ℤ × ℤ × ℤ × ℤ

instance : DecidableEq Rect := by unfold Rect; infer_instance

/-- `is_in_roi` from `detection.py` lines 23-29: the detection box intersects
the ROI iff the negated disjointness test
`not (x2 < roi_x1 or x1 > roi_x2 or y2 < roi_y1 or y1 > roi_y2)` holds. -/
def is_in_roi (bbox roi : Rect) : Bool :=
  let (x1, y1, x2, y2) := bbox
  let (roi_x1, roi_y1, roi_x2, roi_y2) := roi
  !(decide (x2 < roi_x1) || decide (x1 > roi_x2) ||
    decide (y2 < roi_y1) || decide (y1 > roi_y2))

/-- Unfolding characterisation: `is_in_roi` holds iff the closed intervals
meet coordinate-wise. -/
lemma is_in_roi_eq_true (a1 a2 a3 a4 b1 b2 b3 b4 : ℤ) :
    is_in_roi (a1, a2, a3, a4) (b1, b2, b3, b4) = true ↔
      b1 ≤ a3 ∧ a1 ≤ b3 ∧ b2 ≤ a4 ∧ a2 ≤ b4 := by
  simp only [is_in_roi, Bool.not_eq_true', Bool.or_eq_false_iff,
    decide_eq_false_iff_not, not_lt, gt_iff_lt]
  tauto

/-- Claim C1: for every detection rectangle and ROI rectangle (well-formed:
left ≤ right, top ≤ bottom), `is_in_roi` returns true iff the rectangles are
not disjoint on either axis; in particular it returns false whenever some
axis has a positive gap, and it returns true when the rectangles merely touch
(share an edge coordinate). -/
theorem is_in_roi_not_disjoint_char
    (a1 a2 a3 a4 b1 b2 b3 b4 : ℤ)
    (hax : a1 ≤ a3) (hay : a2 ≤ a4) (hbx : b1 ≤ b3) (hby : b2 ≤ b4) :
    (is_in_roi (a1, a2, a3, a4) (b1, b2, b3, b4) = true ↔
      ¬ (Disjoint (Set.Icc a1 a3) (Set.Icc b1 b3) ∨
         Disjoint (Set.Icc a2 a4) (Set.Icc b2 b4))) ∧
    (a3 < b1 ∨ b3 < a1 ∨ a4 < b2 ∨ b4 < a2 →
      is_in_roi (a1, a2, a3, a4) (b1, b2, b3, b4) = false) ∧
    (a3 = b1 ∧ b2 ≤ a4 ∧ a2 ≤ b4 →
      is_in_roi (a1, a2, a3, a4) (b1, b2, b3, b4) = true) := by
  have hchar := is_in_roi_eq_true a1 a2 a3 a4 b1 b2 b3 b4
  have hx : ¬ Disjoint (Set.Icc a1 a3) (Set.Icc b1 b3) ↔ (b1 ≤ a3 ∧ a1 ≤ b3) := by
    rw [Set.not_disjoint_iff]
    constructor
    · rintro ⟨x, ⟨hx1, hx2⟩, hx3, hx4⟩
      omega
    · rintro ⟨h1, h2⟩
      exact ⟨max a1 b1, ⟨le_max_left _ _, max_le hax h1⟩,
        ⟨le_max_right _ _, max_le h2 hbx⟩⟩
  have hy : ¬ Disjoint (Set.Icc a2 a4) (Set.Icc b2 b4) ↔ (b2 ≤ a4 ∧ a2 ≤ b4) := by
    rw [Set.not_disjoint_iff]
    constructor
    · rintro ⟨y, ⟨hy1, hy2⟩, hy3, hy4⟩
      omega
    · rintro ⟨h1, h2⟩
      exact ⟨max a2 b2, ⟨le_max_left _ _, max_le hay h1⟩,
        ⟨le_max_right _ _, max_le h2 hby⟩⟩
  refine ⟨?_, ?_, ?_⟩
  · rw [hchar, not_or, hx, hy]
    tauto
  · intro hgap
    rw [Bool.eq_false_iff]
    intro hTrue
    rw [hchar] at hTrue
    rcases hgap with h | h | h | h <;> omega
  · rintro ⟨h1, h2, h3⟩
    rw [hchar]
    omega

/-- Witness for C1: a detection touching an ROI on its right edge, with
overlapping vertical extents, is reported as intersecting. -/
theorem is_in_roi_not_disjoint_char_witness :
    is_in_roi (10, 10, 40, 50) (40, 40, 100, 100) = true :=
  (is_in_roi_not_disjoint_char 10 10 40 50 40 40 100 100
    (by decide) (by decide) (by decide) (by decide)).2.2
    ⟨rfl, by decide, by decide⟩

/-- Claim C7: the intersection test is symmetric in its two arguments. -/
theorem is_in_roi_symm (A B : Rect) : is_in_roi A B = is_in_roi B A := by
  obtain ⟨a1, a2, a3, a4⟩ := A
  obtain ⟨b1, b2, b3, b4⟩ := B
  have h1 := is_in_roi_eq_true a1 a2 a3 a4 b1 b2 b3 b4
  have h2 := is_in_roi_eq_true b1 b2 b3 b4 a1 a2 a3 a4
  cases hx : is_in_roi (a1, a2, a3, a4) (b1, b2, b3, b4) <;>
    cases hy : is_in_roi (b1, b2, b3, b4) (a1, a2, a3, a4)
  · rfl
  · exfalso
    rw [hx] at h1
    rw [hy] at h2
    have hc := h2.mp rfl
    exact absurd (h1.mpr (by omega)) (by decide)
  · exfalso
    rw [hx] at h1
    rw [hy] at h2
    have hc := h1.mp rfl
    exact absurd (h2.mpr (by omega)) (by decide)
  · rfl

/-- Counterexample to C8 as stated: with arbitrary scalar coordinates allowed,
the degenerate tuple `(1, 0, 0, 0)` does not intersect itself, because its
right edge `0` is strictly left of its own left edge `1`. -/
theorem is_in_roi_refl_cex :
    ¬ (is_in_roi ((1, 0, 0, 0) : Rect) ((1, 0, 0, 0) : Rect) = true) := by
  decide

/-- Claim C8 (amended): every well-formed rectangle (left ≤ right and
top ≤ bottom) intersects itself under `is_in_roi`. -/
theorem is_in_roi_refl (a1 a2 a3 a4 : ℤ) (hx : a1 ≤ a3) (hy : a2 ≤ a4) :
    is_in_roi (a1, a2, a3, a4) (a1, a2, a3, a4) = true := by
  rw [is_in_roi_eq_true]
  omega

/-- Witness for C8 (amended): a concrete well-formed rectangle intersects
itself. -/
theorem is_in_roi_refl_witness :
    is_in_roi ((3, 4, 7, 9) : Rect) ((3, 4, 7, 9) : Rect) = true :=
  is_in_roi_refl 3 4 7 9 (by decide) (by decide)

/-- A colour as an exact triple of rationals (B, G, R channel order, as in
the source's OpenCV calls). -/
def Pixel : Type := ℚ × ℚ × ℚ

instance : DecidableEq Pixel := by unfold Pixel; infer_instance

/-- A frame is a pixel buffer, modelled as a total map from integer
coordinates `(x, y)` to colours. -/
def Frame : Type := ℤ × ℤ → Pixel

/-- The fill/border colour `(0, 255, 0)` used by `draw_roi` (lines 14, 21). -/
def roiColor : Pixel := (0, 255, 0)

/-- The transparency factor `alpha = 0.1` of `draw_roi` (line 17). -/
def alphaROI : ℚ := 1 / 10

/-- Linear alpha blend of two colours, channel-wise:
`a*o + (1-a)*p`, the semantics of `cv2.addWeighted(overlay, a, frame, 1-a, 0)`
at one pixel (line 18). -/
def blendPix (a : ℚ) (o p : Pixel) : Pixel :=
  (a * o.1 + (1 - a) * p.1,
   a * o.2.1 + (1 - a) * p.2.1,
   a * o.2.2 + (1 - a) * p.2.2)

/-- Membership of a pixel in the (inclusive) filled rectangle drawn by
`cv2.rectangle(overlay, (x1, y1), (x2, y2), color, -1)` (line 14). -/
def inRectB (roi : Rect) (p : ℤ × ℤ) : Bool :=
  let (x1, y1, x2, y2) := roi
  decide (x1 ≤ p.1) && decide (p.1 ≤ x2) &&
  decide (y1 ≤ p.2) && decide (p.2 ≤ y2)

/-- The rectangle grown by the outward half of the thickness-3 border stroke
drawn by `cv2.rectangle(frame, (x1, y1), (x2, y2), color, 3)` (line 21):
the stroke is centred on the outline, one pixel to each side. -/
def grownRect (roi : Rect) : Rect :=
  let (x1, y1, x2, y2) := roi
  (x1 - 1, y1 - 1, x2 + 1, y2 + 1)

/-- The rectangle shrunk past the inward half of the thickness-3 stroke. -/
def shrunkRect (roi : Rect) : Rect :=
  let (x1, y1, x2, y2) := roi
  (x1 + 2, y1 + 2, x2 - 2, y2 - 2)

/-- Membership of a pixel in the thickness-3 border stroke of line 21: inside
the grown rectangle but not strictly interior past the stroke. -/
def onStrokeB (roi : Rect) (p : ℤ × ℤ) : Bool :=
  inRectB (grownRect roi) p && !inRectB (shrunkRect roi) p

/-- `draw_roi` from `detection.py` lines 5-21: copy the frame, paint the
filled ROI rectangle onto the copy, alpha-blend copy over frame with
`alpha = 0.1`, then draw the opaque thickness-3 border on the result. -/
def draw_roi (frame : Frame) (roi : Rect) : Frame :=
  let overlay : Frame := fun q => if inRectB roi q then roiColor else frame q
  let blended : Frame := fun q => blendPix alphaROI (overlay q) (frame q)
  fun p => if onStrokeB roi p then roiColor else blended p

/-- Claim C5: pixels of `draw_roi frame roi` on the border stroke equal the
fill colour unmixed with the background, and pixels inside the rectangle but
off the stroke equal the linear alpha blend of the fill colour over the
original pixel, with the fixed constant `alphaROI = 1/10`. -/
theorem draw_roi_blend_and_border (frame : Frame) (roi : Rect) (p : ℤ × ℤ) :
    alphaROI = 1 / 10 ∧
    (onStrokeB roi p = true → draw_roi frame roi p = roiColor) ∧
    (onStrokeB roi p = false → inRectB roi p = true →
      draw_roi frame roi p = blendPix alphaROI roiColor (frame p)) := by
  refine ⟨rfl, ?_, ?_⟩
  · intro hs
    simp only [draw_roi, hs, if_true]
  · intro hs hin
    simp only [draw_roi, hs, hin, Bool.false_eq_true, if_false, if_true]

/-- Witness for C5: on a constant grey frame with ROI `(0, 0, 10, 10)`, the
corner pixel `(0, 0)` lies on the stroke and becomes the pure fill colour,
while the interior pixel `(5, 5)` becomes the 1/10 blend. -/
theorem draw_roi_blend_and_border_witness :
    draw_roi (fun _ => ((7, 11, 13) : Pixel)) (0, 0, 10, 10) (0, 0) = roiColor ∧
    draw_roi (fun _ => ((7, 11, 13) : Pixel)) (0, 0, 10, 10) (5, 5) =
      blendPix alphaROI roiColor ((7, 11, 13) : Pixel) :=
  ⟨(draw_roi_blend_and_border (fun _ => ((7, 11, 13) : Pixel))
      (0, 0, 10, 10) (0, 0)).2.1 (by decide),
   (draw_roi_blend_and_border (fun _ => ((7, 11, 13) : Pixel))
      (0, 0, 10, 10) (5, 5)).2.2 (by decide) (by decide)⟩

/-- Claim C9: `draw_roi` leaves every pixel strictly outside the bordered
rectangle (the ROI rectangle grown by the outward stroke) unchanged: there
the blend combines the frame with an identical copy of itself. -/
theorem draw_roi_outside_unchanged (frame : Frame) (roi : Rect) (p : ℤ × ℤ)
    (hout : inRectB (grownRect roi) p = false) :
    draw_roi frame roi p = frame p := by
  obtain ⟨x1, y1, x2, y2⟩ := roi
  have hstroke : onStrokeB (x1, y1, x2, y2) p = false := by
    simp only [onStrokeB, hout, Bool.false_and]
  have hin : inRectB (x1, y1, x2, y2) p = false := by
    simp only [inRectB, grownRect, Bool.and_eq_false_iff,
      decide_eq_false_iff_not, not_le] at hout ⊢
    omega
  simp only [draw_roi, hstroke, hin, Bool.false_eq_true, if_false]
  obtain ⟨r, g, b⟩ := frame p
  simp only [blendPix, alphaROI]
  refine Prod.ext ?_ (Prod.ext ?_ ?_) <;> ring

/-- Witness for C9: a pixel two steps outside the ROI keeps its colour. -/
theorem draw_roi_outside_unchanged_witness :
    draw_roi (fun _ => ((7, 11, 13) : Pixel)) (0, 0, 10, 10) (13, 4) =
      ((7, 11, 13) : Pixel) :=
  draw_roi_outside_unchanged (fun _ => ((7, 11, 13) : Pixel))
    (0, 0, 10, 10) (13, 4) (by decide)

/-- A drawing action emitted for one detection in the loop body
(lines 109-114): the red bounding rectangle, or the confidence label placed
above its top-left corner. -/
inductive DrawAct : Type
  | boundingBox (bbox : Rect) : DrawAct
  | label (bbox : Rect) : DrawAct
deriving DecidableEq

/-- The per-detection filter and annotation of `main` (lines 105-114): the
bounding rectangle and label are drawn iff the detection intersects
`roi1`, `roi2` or `roi3`; otherwise nothing is drawn. -/
def detectionEvents (roi1 roi2 roi3 bbox : Rect) : List DrawAct :=
  if is_in_roi bbox roi1 || is_in_roi bbox roi2 || is_in_roi bbox roi3 then
    [DrawAct.boundingBox bbox, DrawAct.label bbox]
  else
    []

/-- Claim C6: the detection `(260, 200, 300, 250)` intersects neither
`(150, 175, 250, 325)` nor `(400, 175, 500, 325)`, and in the loop a
detection intersecting none of the configured ROIs is silently discarded:
its annotation emits no bounding box and no label. -/
theorem detection_outside_rois_discarded :
    is_in_roi (260, 200, 300, 250) (150, 175, 250, 325) = false ∧
    is_in_roi (260, 200, 300, 250) (400, 175, 500, 325) = false ∧
    ∀ roi1 roi2 roi3 bbox : Rect,
      is_in_roi bbox roi1 = false → is_in_roi bbox roi2 = false →
      is_in_roi bbox roi3 = false →
      detectionEvents roi1 roi2 roi3 bbox = [] := by
  refine ⟨by decide, by decide, ?_⟩
  intro roi1 roi2 roi3 bbox h1 h2 h3
  simp only [detectionEvents, h1, h2, h3, Bool.or_self, Bool.false_eq_true,
    if_false]

/-- Witness for C6: with the two scenario ROIs configured (the third slot
repeating the second), the scenario detection produces no drawing actions. -/
theorem detection_outside_rois_discarded_witness :
    detectionEvents (150, 175, 250, 325) (400, 175, 500, 325)
      (400, 175, 500, 325) (260, 200, 300, 250) = [] :=
  detection_outside_rois_discarded.2.2
    (150, 175, 250, 325) (400, 175, 500, 325) (400, 175, 500, 325)
    (260, 200, 300, 250) (by decide) (by decide) (by decide)

/-- Python `int()` applied to an exact rational: truncation toward zero. -/
def truncQ (q : ℚ) : ℤ :=
  if q < 0 then ⌈q⌉ else ⌊q⌋

/-- `truncQ` is monotone. -/
lemma truncQ_mono {q r : ℚ} (h : q ≤ r) : truncQ q ≤ truncQ r := by
  unfold truncQ
  by_cases hq : q < 0 <;> by_cases hr : r < 0 <;> simp only [hq, hr, if_true,
    if_false]
  · exact Int.ceil_le_ceil h
  · calc ⌈q⌉ ≤ 0 := Int.ceil_le.mpr (by exact_mod_cast hq.le)
      _ ≤ ⌊r⌋ := Int.floor_nonneg.mpr (not_lt.mp hr)
  · exact absurd (h.trans_lt hr) hq
  · exact Int.floor_le_floor h

/-- `truncQ` is the identity on integers. -/
lemma truncQ_intCast (n : ℤ) : truncQ (n : ℚ) = n := by
  unfold truncQ
  by_cases hn : (n : ℚ) < 0 <;> simp [hn]

/-- The ROI geometry computed in each iteration of the frame loop
(lines 66-84) from the current window width and height: the derived sizes use
Python floor division `//`, and the box corners apply Python `int()` to float
expressions, modelled exactly over ℚ with truncation toward zero. -/
def computeROIs (ww wh : ℕ) : Rect × Rect × Rect :=
  let roi_width : ℕ := ww / 12
  let roi_height : ℕ := wh / 4
  let margin : ℕ := ww / 20
  let center_x : ℕ := ww / 4
  let box_spacing : ℕ := roi_width / 2
  let cx : ℚ := (center_x : ℚ)
  let rw : ℚ := (roi_width : ℚ)
  let bs : ℚ := (box_spacing : ℚ)
  ((truncQ (cx - rw * (3 / 2) - bs), (margin : ℤ),
    truncQ (cx - rw * (1 / 2) - bs), (margin : ℤ) + (roi_height : ℤ)),
   (truncQ (cx - rw * (1 / 2)), (margin : ℤ),
    truncQ (cx + rw * (1 / 2)), (margin : ℤ) + (roi_height : ℤ)),
   (truncQ (cx + rw * (1 / 2) + bs), (margin : ℤ),
    truncQ (cx + rw * (3 / 2) + bs), (margin : ℤ) + (roi_height : ℤ)))

/-- Claim C10: for every window width and height, the three ROI rectangles of
an iteration share the same vertical extent — top `margin = ww / 20`, bottom
`margin + roi_height = ww / 20 + wh / 4` — and are ordered left to right with
no horizontal interior overlap: `roi1.x2 ≤ roi2.x1` and `roi2.x2 ≤ roi3.x1`. -/
theorem computeROIs_layout (ww wh : ℕ) :
    (computeROIs ww wh).1.2.1 = ((ww / 20 : ℕ) : ℤ) ∧
    (computeROIs ww wh).2.1.2.1 = ((ww / 20 : ℕ) : ℤ) ∧
    (computeROIs ww wh).2.2.2.1 = ((ww / 20 : ℕ) : ℤ) ∧
    (computeROIs ww wh).1.2.2.2 = ((ww / 20 : ℕ) : ℤ) + ((wh / 4 : ℕ) : ℤ) ∧
    (computeROIs ww wh).2.1.2.2.2 = ((ww / 20 : ℕ) : ℤ) + ((wh / 4 : ℕ) : ℤ) ∧
    (computeROIs ww wh).2.2.2.2.2 = ((ww / 20 : ℕ) : ℤ) + ((wh / 4 : ℕ) : ℤ) ∧
    (computeROIs ww wh).1.2.2.1 ≤ (computeROIs ww wh).2.1.1 ∧
    (computeROIs ww wh).2.1.2.2.1 ≤ (computeROIs ww wh).2.2.1 := by
  have hbs : (0 : ℚ) ≤ ((ww / 12 / 2 : ℕ) : ℚ) := Nat.cast_nonneg _
  refine ⟨rfl, rfl, rfl, rfl, rfl, rfl, ?_, ?_⟩
  · exact truncQ_mono (by linarith)
  · exact truncQ_mono (by linarith)

/-- The ROI values used by iteration `i` of the frame loop: lines 66-84 read
the window dimensions afresh each iteration (`cv2.getWindowImageRect`) and
recompute the three rectangles from them. `dims` supplies the window
dimensions observed at each iteration. -/
def loopROIs (dims : ℕ → ℕ × ℕ) (i : ℕ) : Rect × Rect × Rect :=
  computeROIs (dims i).1 (dims i).2

/-- Counterexample to C3 as stated: in a session whose window dimensions are
`(1920, 1080)` at iteration 0 and `(960, 540)` at iteration 1, the two
iterations use different ROI rectangle values — the ROIs are recomputed every
iteration, not fixed once at startup. -/
theorem loopROIs_vary_cex :
    loopROIs (fun i => if i = 0 then (1920, 1080) else (960, 540)) 0 ≠
      loopROIs (fun i => if i = 0 then (1920, 1080) else (960, 540)) 1 := by
  intro h
  have h2 := congrArg (fun t => t.1.2.1) h
  simp only [loopROIs, computeROIs] at h2
  norm_num at h2

/-- Claim C3 (amended): the per-iteration ROI rectangles are a pure function
of the window dimensions the iteration observes; any two iterations that see
equal window dimensions use equal ROI values, so the ROIs are fixed exactly
when the window size never changes. -/
theorem loopROIs_det (dims : ℕ → ℕ × ℕ) (i j : ℕ) (h : dims i = dims j) :
    loopROIs dims i = loopROIs dims j := by
  unfold loopROIs
  rw [h]

/-- Witness for C3 (amended): with a constant window size, iterations 0 and 1
use the same ROI values. -/
theorem loopROIs_det_witness :
    loopROIs (fun _ => (1920, 1080)) 0 = loopROIs (fun _ => (1920, 1080)) 1 :=
  loopROIs_det (fun _ => (1920, 1080)) 0 1 rfl

/-- The observable events of `main` (lines 31-124) in source order. -/
inductive MainEv : Type
  | printOpenErr : MainEv
  | windowCreated : MainEv
  | showFrame (i : ℕ) : MainEv
  | printReadErr : MainEv
  | capReleased : MainEv
  | windowsDestroyed : MainEv
deriving DecidableEq

/-- The environment of one run of `main`: whether the camera opens
(line 37), whether the `i`-th `cap.read()` succeeds (line 60), and the raw
key code returned by `cv2.waitKey` in iteration `i` (line 120). -/
structure CamEnv : Type where
  cameraOpens : Bool
  readOk : ℕ → Bool
  keyCode : ℕ → ℕ

/-- The events of the frame loop (lines 59-121) from iteration `i` on, with
`fuel` bounding the number of iterations: `none` means the loop did not exit
within `fuel` iterations. A failed read prints the error and breaks
(lines 61-63); otherwise the frame is processed and shown, and the loop
breaks after the show when `waitKey & 0xFF` is the ESC code 27 (line 120). -/
def loopTrace (env : CamEnv) : ℕ → ℕ → Option (List MainEv)
  | 0, _ => none
  | fuel + 1, i =>
    if env.readOk i = false then
      some [MainEv.printReadErr]
    else if env.keyCode i % 256 = 27 then
      some [MainEv.showFrame i]
    else
      (loopTrace env fuel (i + 1)).map (fun t => MainEv.showFrame i :: t)

/-- The event trace of `main` (lines 31-124): if the camera does not open,
print the diagnostic and return at once (lines 37-39); otherwise create the
window (lines 55-57), run the loop, and on leaving it release the capture
device and destroy all windows (lines 123-124). -/
def mainTrace (env : CamEnv) (fuel : ℕ) : Option (List MainEv) :=
  if env.cameraOpens = false then
    some [MainEv.printOpenErr]
  else
    (loopTrace env fuel 0).map
      (fun t => MainEv.windowCreated ::
        (t ++ [MainEv.capReleased, MainEv.windowsDestroyed]))

/-- Counterexample to C2 as stated: when the camera fails to open, `main`
returns at line 39 having emitted only the diagnostic — neither
`cap.release()` nor `cv2.destroyAllWindows()` runs on that exit path. -/
theorem mainTrace_release_cex :
    mainTrace ⟨false, fun _ => true, fun _ => 0⟩ 1 =
      some [MainEv.printOpenErr] ∧
    MainEv.capReleased ∉ [MainEv.printOpenErr] ∧
    MainEv.windowsDestroyed ∉ [MainEv.printOpenErr] := by
  refine ⟨rfl, by decide, by decide⟩

/-- Claim C2 (amended): on every exit path that reaches the frame loop — the
normal ESC exit and the mid-loop frame-read failure — the capture device is
released and the display windows destroyed before `main` exits; on the fatal
camera-open failure path `main` returns without running either release call
(nothing was successfully acquired there). -/
theorem mainTrace_release (env : CamEnv) (fuel : ℕ) (tr : List MainEv)
    (hopen : env.cameraOpens = true) (hterm : mainTrace env fuel = some tr) :
    MainEv.capReleased ∈ tr ∧ MainEv.windowsDestroyed ∈ tr := by
  rw [mainTrace, hopen] at hterm
  simp only [Bool.true_eq_false, if_false] at hterm
  rcases Option.map_eq_some'.mp hterm with ⟨t, hlt, rfl⟩
  simp

/-- Witness for C2 (amended): a run whose first frame read fails releases the
capture device and destroys the windows before exiting. -/
theorem mainTrace_release_witness :
    MainEv.capReleased ∈
      [MainEv.windowCreated, MainEv.printReadErr, MainEv.capReleased,
        MainEv.windowsDestroyed] ∧
    MainEv.windowsDestroyed ∈
      [MainEv.windowCreated, MainEv.printReadErr, MainEv.capReleased,
        MainEv.windowsDestroyed] :=
  mainTrace_release ⟨true, fun _ => false, fun _ => 0⟩ 1
    [MainEv.windowCreated, MainEv.printReadErr, MainEv.capReleased,
      MainEv.windowsDestroyed] rfl rfl

/-- Claim C4: if the capture device fails to open, `main` prints the
diagnostic and returns: its whole trace is the diagnostic event, so no
display window is created and no loop iteration shows a frame. -/
theorem mainTrace_open_fail (env : CamEnv) (fuel : ℕ)
    (h : env.cameraOpens = false) :
    mainTrace env fuel = some [MainEv.printOpenErr] ∧
    MainEv.windowCreated ∉ [MainEv.printOpenErr] ∧
    ∀ i : ℕ, MainEv.showFrame i ∉ [MainEv.printOpenErr] := by
  refine ⟨?_, by decide, fun i => by simp⟩
  rw [mainTrace, h]
  simp

/-- Witness for C4: a concrete environment whose camera does not open yields
exactly the diagnostic trace. -/
theorem mainTrace_open_fail_witness :
    mainTrace ⟨false, fun _ => true, fun _ => 27⟩ 5 =
      some [MainEv.printOpenErr] ∧
    MainEv.windowCreated ∉ [MainEv.printOpenErr] ∧
    ∀ i : ℕ, MainEv.showFrame i ∉ [MainEv.printOpenErr] :=
  mainTrace_open_fail ⟨false, fun _ => true, fun _ => 27⟩ 5 rfl
